import Mathlib

/-!
Verification of the confirmation-shipment order-processing pipeline.

Shallow embedding of the repository's Python sources:
  - `src/services/prestashop_service.py` (normalizer, tracking filter, fetch glue)
  - `src/services/order_processor.py` (per-order orchestration, statistics, summary)

Python values decoded from the upstream XML (via xmltodict) are modelled by the
inductive `Val`: a value is None, a string, a mapping (association list with
Python dict insertion-order semantics and unique keys), or a list.  Python
exceptions raised by attribute access (`.get` on a non-dict, `.strip()` on a
non-string, item lookup `d[k]`) are modelled with `Except String`.  Truthiness
(`if not x`) is `Val.falsy`.  `str.strip()` is modelled by `pyStrip`
(removal of leading and trailing ASCII whitespace). -/

inductive Val where
  | vNone : Val
  | vStr : String → Val
  | vDict : List (String × Val) → Val
  | vList : List Val → Val

/-- Python truthiness: `None`, `""`, `{}` and `[]` are falsy, all else truthy. -/
def Val.falsy : Val → Bool
  | Val.vNone => true
  | Val.vStr s => s == ""
  | Val.vDict l => l.isEmpty
  | Val.vList l => l.isEmpty

def Val.isDict : Val → Bool
  | Val.vDict _ => true
  | _ => false

/-- Python `x.get(k)`: value (or None) on a dict, `AttributeError` otherwise. -/
def pyGet (o : Val) (k : String) : Except String Val :=
  match o with
  | Val.vDict l => Except.ok ((List.lookup k l).getD Val.vNone)
  | _ => Except.error "AttributeError"

/-- Python `x.get(k, default)`: value (or default) on a dict, `AttributeError` otherwise. -/
def pyGetD (o : Val) (k : String) (d : Val) : Except String Val :=
  match o with
  | Val.vDict l => Except.ok ((List.lookup k l).getD d)
  | _ => Except.error "AttributeError"

/-- Python `x[k]` on a mapping: `KeyError` when absent, `TypeError` on a non-dict. -/
def pyIndex (o : Val) (k : String) : Except String Val :=
  match o with
  | Val.vDict l =>
    match List.lookup k l with
    | some v => Except.ok v
    | none => Except.error "KeyError"
  | _ => Except.error "TypeError"

/-- Pure mapping lookup (no exception modelling), for stating invariants. -/
def pyLookup (o : Val) (k : String) : Option Val :=
  match o with
  | Val.vDict l => List.lookup k l
  | _ => none

/-- Python `d[k] = v` on a dict: replace the value in place (keys are unique in
Python dicts), or append the new key at the end, preserving insertion order. -/
def setKey : List (String × Val) → String → Val → List (String × Val)
  | [], k, v => [(k, v)]
  | p :: rest, k, v => if p.1 == k then (k, v) :: rest else p :: setKey rest k v

mutual

/-- Python `repr` of an xmltodict value (used by `str()` on non-string values). -/
def pyReprV : Val → String
  | Val.vNone => "None"
  | Val.vStr s => "\x27" ++ s ++ "\x27"
  | Val.vList l => "[" ++ String.intercalate ", " (pyReprList l) ++ "]"
  | Val.vDict l => "\x7b" ++ String.intercalate ", " (pyReprPairs l) ++ "\x7d"

def pyReprList : List Val → List String
  | [] => []
  | v :: vs => pyReprV v :: pyReprList vs

def pyReprPairs : List (String × Val) → List String
  | [] => []
  | p :: ps => ("\x27" ++ p.1 ++ "\x27: " ++ pyReprV p.2) :: pyReprPairs ps

end

/-- Python `str()` coercion: identity on strings, `repr`-style otherwise. -/
def pyStr : Val → String
  | Val.vStr s => s
  | v => pyReprV v

/-- The whitespace characters removed by Python `str.strip()` (ASCII part). -/
def pyIsSpace (c : Char) : Bool :=
  c == ' ' || c == '\t' || c == '\n' || c == '\r' || c == '\x0b' || c == '\x0c'

/-- Python `str.strip()`: remove leading and trailing whitespace. -/
def pyStrip (s : String) : String :=
  String.mk (((s.data.dropWhile pyIsSpace).reverse.dropWhile pyIsSpace).reverse)

/-! ## `PrestaShopService._normalize_orders` (prestashop_service.py lines 86-127) -/

/-- Body of `_normalize_orders` before its `except Exception` clause: the
sequence of `.get` accesses can raise (`AttributeError`) when an intermediate
node is not a mapping. -/
def normalizeOrdersBody (data : Val) : Except String (List Val) :=
  -- if not data: return []
  if data.falsy then Except.ok [] else
  -- prestashop = data.get("prestashop"); if not prestashop: return []
  match pyGet data "prestashop" with
  | Except.error e => Except.error e
  | Except.ok prestashop =>
  if prestashop.falsy then Except.ok [] else
  -- orders_data = prestashop.get("orders"); if not orders_data: return []
  match pyGet prestashop "orders" with
  | Except.error e => Except.error e
  | Except.ok orders_data =>
  if orders_data.falsy then Except.ok [] else
  -- order_data = orders_data.get("order", [])
  match pyGetD orders_data "order" (Val.vList []) with
  | Except.error e => Except.error e
  | Except.ok order_data =>
  match order_data with
  -- single collapsed order: wrap into a one-element list
  | Val.vDict m => Except.ok [Val.vDict m]
  -- already a list: returned as-is (elements are not inspected)
  | Val.vList l => Except.ok l
  -- unexpected type: warning logged, empty list
  | _ => Except.ok []

/-- `_normalize_orders`: the `except Exception` clause maps any raised
exception to an empty list. -/
def _normalize_orders (data : Val) : List Val :=
  match normalizeOrdersBody data with
  | Except.ok l => l
  | Except.error _ => []

/-- The shape of a parsed orders response: `{"prestashop": {"orders": {"order": node}}}`. -/
def wrapOrders (node : Val) : Val :=
  Val.vDict [("prestashop", Val.vDict [("orders", Val.vDict [("order", node)])])]

/-! ## `PrestaShopService._filter_orders_with_tracking` (prestashop_service.py lines 129-164) -/

/-- One iteration of the filter loop (lines 142-162): normalize the
`shipping_number` field in place and decide whether the order is kept.
Returns the order's post-state and the keep decision; raises
(`Except.error`) when the order is not a mapping (`order.get` fails) or the
text-content value is not a string (`.strip()` fails). -/
def filterStep (order : Val) : Except String (Val × Bool) :=
  match order with
  | Val.vDict l =>
    -- shipping_number = order.get("shipping_number", {})
    let sn0 := (List.lookup "shipping_number" l).getD (Val.vDict [])
    -- if not isinstance(shipping_number, dict):
    --     shipping_number = {"_": str(shipping_number) if shipping_number else ""}
    --     order["shipping_number"] = shipping_number
    let p1 : Val × List (String × Val) :=
      if sn0.isDict then (sn0, l)
      else
        let sn1 := Val.vDict [("_", Val.vStr (if sn0.falsy then "" else pyStr sn0))]
        (sn1, setKey l "shipping_number" sn1)
    -- if "_" not in shipping_number:
    --     shipping_number["_"] = ""
    --     order["shipping_number"] = shipping_number
    let p2 : Val × List (String × Val) :=
      match p1.1 with
      | Val.vDict m =>
        if (List.lookup "_" m).isSome then p1
        else
          let sn2 := Val.vDict (setKey m "_" (Val.vStr ""))
          (sn2, setKey p1.2 "shipping_number" sn2)
      | _ => p1
    -- tracking_value = shipping_number.get("_", "").strip()
    -- if tracking_value: filtered_orders.append(order)
    match p2.1 with
    | Val.vDict m2 =>
      match (List.lookup "_" m2).getD (Val.vStr "") with
      | Val.vStr s => Except.ok (Val.vDict p2.2, !(pyStrip s == ""))
      | _ => Except.error "AttributeError"
    | _ => Except.error "AttributeError"
  | _ => Except.error "AttributeError"

/-- The whole filter loop.  Returns the kept orders (the function's return
value) and the post-state of every input order (the in-place mutations). -/
def filterRun : List Val → Except String (List Val × List Val)
  | [] => Except.ok ([], [])
  | o :: rest =>
    match filterStep o with
    | Except.error e => Except.error e
    | Except.ok (o2, keep) =>
      match filterRun rest with
      | Except.error e => Except.error e
      | Except.ok (kept, post) =>
        Except.ok ((if keep then o2 :: kept else kept), o2 :: post)

/-- `_filter_orders_with_tracking`: the list of kept orders. -/
def _filter_orders_with_tracking (orders : List Val) : Except String (List Val) :=
  match filterRun orders with
  | Except.ok (kept, _) => Except.ok kept
  | Except.error e => Except.error e

/-! ## Spec-side definitions (from the spec's words, for the refinement claims
about the filter: §4.1 `normalize_scalar_field` and §4.2 `orders_with_tracking`) -/

/-- Spec §4.1 scalar rule: a text-bearing field is a bare string, a mapping
with the text-content key, or absent; always a string, empty when absent. -/
def normalize_scalar_field (field : Val) : String :=
  match field with
  | Val.vStr s => s
  | Val.vDict m =>
    match List.lookup "_" m with
    | some (Val.vStr s) => s
    | _ => ""
  | _ => ""

/-- The order's raw tracking-number field (absent modelled as None). -/
def trackFieldOf (order : Val) : Val :=
  match order with
  | Val.vDict l => (List.lookup "shipping_number" l).getD Val.vNone
  | _ => Val.vNone

/-- Spec §4.2 keep predicate: scalar-rule coercion, trimmed, non-empty. -/
def specKeepB (order : Val) : Bool :=
  !(pyStrip (normalize_scalar_field (trackFieldOf order)) == "")

/-- The shapes covered by the spec's scalar rule: absent/None, bare string, or
a mapping whose text-content key (if present) holds a string. -/
def scalarShaped (field : Val) : Bool :=
  match field with
  | Val.vNone => true
  | Val.vStr _ => true
  | Val.vDict m =>
    match List.lookup "_" m with
    | some (Val.vStr _) => true
    | none => true
    | _ => false
  | _ => false

/-- The in-place `shipping_number` normalization performed by the filter on a
single order (the net mutation of lines 142-153). -/
def normalizeOrder (order : Val) : Val :=
  match order with
  | Val.vDict l =>
    let sn0 := (List.lookup "shipping_number" l).getD (Val.vDict [])
    match sn0 with
    | Val.vDict m =>
      if (List.lookup "_" m).isSome then Val.vDict l
      else Val.vDict (setKey l "shipping_number" (Val.vDict (setKey m "_" (Val.vStr ""))))
    | _ =>
      Val.vDict (setKey l "shipping_number"
        (Val.vDict [("_", Val.vStr (if sn0.falsy then "" else pyStr sn0))]))
  | _ => order

/-- The orchestrator's tracking access
`order.get("shipping_number", {}).get("_", "")` (order_processor.py line 56). -/
def orchTracking (o : Val) : Except String Val :=
  match pyGetD o "shipping_number" (Val.vDict []) with
  | Except.error e => Except.error e
  | Except.ok sn => pyGetD sn "_" (Val.vStr "")

/-- The `shipping_number` mapping of an order, `[]` when not a mapping. -/
def snFieldOf (o : Val) : List (String × Val) :=
  match pyLookup o "shipping_number" with
  | some (Val.vDict m) => m
  | _ => []

/-- The string stored under the text-content key of `shipping_number`. -/
def trackStrOf (o : Val) : String :=
  match List.lookup "_" (snFieldOf o) with
  | some (Val.vStr s) => s
  | _ => ""

/-! ## `OrderProcessor` (order_processor.py)

The collaborators called per order (PrestaShop entity fetches, template
render, mail send, state update) are external HTTP/SMTP calls; they are
modelled as oracle functions in `Env`.  A `None` return is `Val.vNone`.
Calls performed by the orchestrator are recorded as `Event`s so that
claims about which calls are attempted can be stated. -/

structure Env where
  fetch_customer_data : Val → Val
  fetch_address_data : Val → Val
  generate_email_template : Val → Val → Val → Val
  send_shipment_confirmation_email : Val → Val → Val → Bool
  update_order_state : Val → Bool

/-- One entry of `self.stats["errors"]`: `{"order_id": ..., "error": ...}`. -/
structure ErrEntry where
  order_id : Val
  error : String

inductive Event where
  | fetchCustomerEv : Val → Event
  | fetchAddressEv : Val → Event
  | genTemplateEv : Event
  | sendEmailEv : Val → Val → Event
  | updateStateEv : Val → Event

/-- `OrderProcessor._extract_xlink_href` (lines 115-127). -/
def extract_xlink_href (field : Val) : Val :=
  match field with
  | Val.vDict l => (List.lookup "@xlink:href" l).getD Val.vNone
  | _ => Val.vNone

/-- Body of `process_single_order` (lines 53-105), i.e. the `try` block:
result of the order (`Except.error` = a raised exception) together with the
trace of collaborator calls made. -/
def psoBody (env : Env) (order : Val) : Except String Bool × List Event :=
  match order with
  | Val.vDict l =>
    -- order_id = order.get("id"); order_reference = order.get("reference")
    let order_id := (List.lookup "id" l).getD Val.vNone
    let order_reference := (List.lookup "reference" l).getD Val.vNone
    -- tracking_number = order.get("shipping_number", {}).get("_", "")
    let sn := (List.lookup "shipping_number" l).getD (Val.vDict [])
    match pyGetD sn "_" (Val.vStr "") with
    | Except.error e => (Except.error e, [])
    | Except.ok _tracking_number =>
      -- customer_url / address_url via _extract_xlink_href
      let customer_url := extract_xlink_href ((List.lookup "id_customer" l).getD Val.vNone)
      let address_url := extract_xlink_href ((List.lookup "id_address_delivery" l).getD Val.vNone)
      -- if not customer_url or not address_url: return False
      if customer_url.falsy || address_url.falsy then (Except.ok false, [])
      else
        -- customer = fetch_customer_data(customer_url); if not customer: return False
        let customer := env.fetch_customer_data customer_url
        if customer.falsy then (Except.ok false, [Event.fetchCustomerEv customer_url])
        else
          -- address = fetch_address_data(address_url); if not address: return False
          let address := env.fetch_address_data address_url
          if address.falsy then
            (Except.ok false,
             [Event.fetchCustomerEv customer_url, Event.fetchAddressEv address_url])
          else
            -- html_content = generate_email_template(order, customer, address)
            let html := env.generate_email_template (Val.vDict l) customer address
            if html.falsy then
              (Except.ok false,
               [Event.fetchCustomerEv customer_url, Event.fetchAddressEv address_url,
                Event.genTemplateEv])
            else
              -- email_sent = send_shipment_confirmation_email(customer["email"], ...)
              match pyIndex customer "email" with
              | Except.error e =>
                (Except.error e,
                 [Event.fetchCustomerEv customer_url, Event.fetchAddressEv address_url,
                  Event.genTemplateEv])
              | Except.ok customer_email =>
                let email_sent :=
                  env.send_shipment_confirmation_email customer_email order_reference html
                if email_sent then
                  -- state_updated = update_order_state(order_id, 4): result only logged,
                  -- "Consideramos éxito parcial, ya que el email se envió"
                  (Except.ok true,
                   [Event.fetchCustomerEv customer_url, Event.fetchAddressEv address_url,
                    Event.genTemplateEv, Event.sendEmailEv customer_email order_reference,
                    Event.updateStateEv order_id])
                else
                  (Except.ok false,
                   [Event.fetchCustomerEv customer_url, Event.fetchAddressEv address_url,
                    Event.genTemplateEv, Event.sendEmailEv customer_email order_reference])
  | _ => (Except.error "AttributeError", [])

/-- `process_single_order` (lines 53-113): the `except Exception` handler logs
the error, appends `{"order_id": order.get("id"), "error": str(e)}` to the
statistics' error list and returns `False`.  Computing `order.get("id")`
inside the handler itself raises when the order is not a mapping, in which
case the exception escapes the method (`Except.error`). -/
def process_single_order (env : Env) (order : Val) :
    Except String Bool × List ErrEntry × List Event :=
  match psoBody env order with
  | (Except.ok b, tr) => (Except.ok b, [], tr)
  | (Except.error e, tr) =>
    match pyGet order "id" with
    | Except.ok oid => (Except.ok false, [{ order_id := oid, error := e }], tr)
    | Except.error e2 => (Except.error e2, [], tr)

/-- `self.stats` (lines 36-41). -/
structure Stats where
  orders_processed : Nat
  orders_success : Nat
  orders_failed : Nat
  errors : List ErrEntry

def stats0 : Stats := { orders_processed := 0, orders_success := 0, orders_failed := 0, errors := [] }

/-- The operational notifications issued by a run (notification manager calls). -/
inductive Notification where
  | critical : String → String → Notification
  | warning : String → Nat → Nat → Nat → List ErrEntry → Notification
  | success : String → Notification

/-- `send_execution_summary` (lines 129-168): nothing when no order was
processed; warning-styled with the first 5 recorded errors when any order
failed; success-styled otherwise. -/
def send_execution_summary (s : Stats) : List Notification :=
  if s.orders_processed = 0 then []
  else if s.orders_failed > 0 then
    [Notification.warning "Ejecución de envíos completada con errores"
      s.orders_processed s.orders_success s.orders_failed (s.errors.take 5)]
  else
    [Notification.success "Ejecución de envíos completada exitosamente"]

/-- The per-order loop of `process_all_orders_async` (lines 194-202):
statistics are updated once per order; an exception escaping
`process_single_order` aborts the loop (second component `some e`). -/
def runLoop (env : Env) : List Val → Stats → Stats × Option String × List Event
  | [], s => (s, none, [])
  | o :: rest, s =>
    let s1 := { s with orders_processed := s.orders_processed + 1 }
    match process_single_order env o with
    | (Except.ok b, errs, tr) =>
      let s2 := { s1 with
        errors := s1.errors ++ errs,
        orders_success := if b then s1.orders_success + 1 else s1.orders_success,
        orders_failed := if b then s1.orders_failed else s1.orders_failed + 1 }
      match runLoop env rest s2 with
      | (s3, exc, tr2) => (s3, exc, tr ++ tr2)
    | (Except.error e, _, tr) => (s1, some e, tr)

/-- `process_all_orders_async` (lines 170-219): a failed fetch (`none`) issues
one critical notification and ends the run; an empty list is a silent no-op;
otherwise the loop runs and the summary is sent, unless an exception escapes
the loop, in which case the outer `except` issues a critical notification. -/
def process_all_orders_async (env : Env) (fetched : Option (List Val)) (s0 : Stats) :
    Stats × List Notification × List Event :=
  match fetched with
  | none =>
    (s0,
     [Notification.critical "Error al consultar PrestaShop API"
       "No se pudo conectar con la API de PrestaShop para obtener pedidos pendientes de envío"],
     [])
  | some orders =>
    if orders.length = 0 then (s0, [], [])
    else
      match runLoop env orders s0 with
      | (s, none, tr) => (s, send_execution_summary s, tr)
      | (s, some e, tr) =>
        (s, [Notification.critical "Error crítico en proceso de confirmación de envíos" e], tr)

/-! ## `fetch_pending_shipment_orders` (prestashop_service.py lines 31-84) -/

/-- Outcome of the initial orders query: a transport error
(`requests.exceptions.RequestException`), an empty response body, an XML
parse failure, or a parsed document. -/
inductive FetchOutcome where
  | transportError : FetchOutcome
  | emptyBody : FetchOutcome
  | parseError : FetchOutcome
  | parsed : Val → FetchOutcome

/-- `fetch_pending_shipment_orders`: `None` on transport or parse failure
(lines 60-65, 76-84), `[]` on an empty body (lines 55-57), otherwise the
normalized and filtered orders; an exception raised while filtering is caught
by the final `except Exception` and yields `None`. -/
def fetch_pending_shipment_orders (r : FetchOutcome) : Option (List Val) :=
  match r with
  | FetchOutcome.transportError => none
  | FetchOutcome.emptyBody => some []
  | FetchOutcome.parseError => none
  | FetchOutcome.parsed data =>
    let orders := _normalize_orders data
    match filterRun orders with
    | Except.ok (kept, _) => some kept
    | Except.error _ => none

/-! ## Concrete orders and oracle environments used in scenario theorems -/

/-- A well-formed pending order with the given id, reference, tracking number
and customer/address resource links. -/
def mkOrder (oid ref trk curl aurl : String) : Val :=
  Val.vDict
    [("id", Val.vStr oid), ("reference", Val.vStr ref),
     ("shipping_number", Val.vDict [("_", Val.vStr trk)]),
     ("id_customer", Val.vDict [("@xlink:href", Val.vStr curl)]),
     ("id_address_delivery", Val.vDict [("@xlink:href", Val.vStr aurl)])]

/-- Fully successful collaborators: entity fetches return populated records,
the template service returns HTML, mail send and state update succeed. -/
def envOk : Env :=
  { fetch_customer_data := fun _ =>
      Val.vDict [("id", Val.vStr "5"), ("firstname", Val.vStr "Ana"),
                 ("lastname", Val.vStr "Ruiz"), ("email", Val.vStr "ana@example.com")]
  , fetch_address_data := fun _ =>
      Val.vDict [("id", Val.vStr "7"), ("city", Val.vStr "Madrid")]
  , generate_email_template := fun _ _ _ => Val.vStr "<html>ok</html>"
  , send_shipment_confirmation_email := fun _ _ _ => true
  , update_order_state := fun _ => true }

/-- Like `envOk` but the customer fetch fails (returns `None`). -/
def envCustFail : Env :=
  { envOk with fetch_customer_data := fun _ => Val.vNone }

/-- Scenario order that succeeds fully under `envOk`. -/
def orderA : Val := mkOrder "1" "A100" "TRK1" "/customers/5" "/addresses/7"

/-- Scenario order whose delivery-address link is missing. -/
def orderB : Val :=
  Val.vDict
    [("id", Val.vStr "2"), ("reference", Val.vStr "B200"),
     ("shipping_number", Val.vDict [("_", Val.vStr "TRK2")]),
     ("id_customer", Val.vDict [("@xlink:href", Val.vStr "/customers/6")])]


/-! ## Association-list lemmas for the in-place dict update -/

theorem lookup_setKey_self (l : List (String × Val)) (k : String) (v : Val) :
    List.lookup k (setKey l k v) = some v := by
  induction l with
  | nil => simp [setKey, List.lookup]
  | cons p rest ih =>
    by_cases h : p.1 == k
    · simp [setKey, h, List.lookup]
    · have h' : (p.1 == k) = false := by simpa using h
      have h2 : (k == p.1) = false := by
        simp only [beq_eq_false_iff_ne] at h' ⊢
        exact fun hk => h' hk.symm
      simp [setKey, h', List.lookup, h2, ih]

theorem lookup_setKey_ne (l : List (String × Val)) (k k2 : String) (v : Val)
    (h : k2 ≠ k) : List.lookup k2 (setKey l k v) = List.lookup k2 l := by
  have hne : (k2 == k) = false := beq_eq_false_iff_ne.mpr h
  induction l with
  | nil => simp [setKey, List.lookup, hne]
  | cons p rest ih =>
    by_cases hp : p.1 == k
    · have hpk : p.1 = k := by simpa using hp
      have : (k2 == p.1) = false := by rw [hpk]; exact hne
      simp [setKey, hp, List.lookup, hne, this]
    · simp [setKey, hp, List.lookup, ih]

/-! ## Claim theorems -/

/-- C3 counterexample: with the collection node holding a sequence of
non-mappings (here a bare string), `_normalize_orders` returns that sequence
verbatim instead of the empty sequence the claim requires. -/
theorem C3_counterexample :
    _normalize_orders (wrapOrders (Val.vList [Val.vStr "x"])) = [Val.vStr "x"]
    ∧ ([Val.vStr "x"] : List Val) ≠ [] :=
  ⟨rfl, by simp⟩

/-- C3 (amended): `_normalize_orders` returns the empty sequence when the
orders collection node is absent; re-wraps a collapsed single order into a
one-element sequence identical to what the general list case produces; returns
the empty sequence (with a warning, not an error) when the node at the
collection position is neither a mapping nor a sequence (a bare scalar or
null); and returns any sequence at that position as-is, without inspecting
whether its elements are mappings. -/
theorem C3_amended (l d : List (String × Val)) (s : String) (xs : List Val)
    (h : List.lookup "orders" l = none) :
    _normalize_orders (Val.vDict [("prestashop", Val.vDict l)]) = []
    ∧ _normalize_orders (wrapOrders (Val.vDict d)) = [Val.vDict d]
    ∧ _normalize_orders (wrapOrders (Val.vList [Val.vDict d])) = [Val.vDict d]
    ∧ _normalize_orders (wrapOrders (Val.vStr s)) = []
    ∧ _normalize_orders (wrapOrders Val.vNone) = []
    ∧ _normalize_orders (wrapOrders (Val.vList xs)) = xs := by
  refine ⟨?_, rfl, rfl, rfl, rfl, rfl⟩
  by_cases hl : l.isEmpty
  · simp [_normalize_orders, normalizeOrdersBody, pyGet, Val.falsy, hl]
  · simp [_normalize_orders, normalizeOrdersBody, pyGet, Val.falsy, hl, h]

/-- C3 witness: the amended statement at concrete inputs. -/
theorem C3_witness :
    _normalize_orders (Val.vDict [("prestashop", Val.vDict [("x", Val.vNone)])]) = []
    ∧ _normalize_orders (wrapOrders (Val.vDict [("id", Val.vStr "1")])) =
        [Val.vDict [("id", Val.vStr "1")]]
    ∧ _normalize_orders (wrapOrders (Val.vList [Val.vDict [("id", Val.vStr "1")]])) =
        [Val.vDict [("id", Val.vStr "1")]]
    ∧ _normalize_orders (wrapOrders (Val.vStr "y")) = []
    ∧ _normalize_orders (wrapOrders Val.vNone) = []
    ∧ _normalize_orders (wrapOrders (Val.vList [Val.vNone])) = [Val.vNone] :=
  C3_amended [("x", Val.vNone)] [("id", Val.vStr "1")] "y" [Val.vNone] (by rfl)

/-- C7: when the initial fetch of candidate orders fails (transport error or
unparsable response, so `fetch_pending_shipment_orders` yields no order list),
exactly one critical notification is issued, no per-order processing occurs
(empty call trace), and the statistics counters are still zero. -/
theorem C7_initial_fetch_failure (env : Env) (r : FetchOutcome)
    (h : r = FetchOutcome.transportError ∨ r = FetchOutcome.parseError) :
    process_all_orders_async env (fetch_pending_shipment_orders r) stats0 =
      (stats0,
       [Notification.critical "Error al consultar PrestaShop API"
         "No se pudo conectar con la API de PrestaShop para obtener pedidos pendientes de envío"],
       []) := by
  rcases h with h | h <;> subst h <;> rfl

/-- C7 witness: a transport error on the initial query. -/
theorem C7_witness :
    process_all_orders_async envOk
        (fetch_pending_shipment_orders FetchOutcome.transportError) stats0 =
      (stats0,
       [Notification.critical "Error al consultar PrestaShop API"
         "No se pudo conectar con la API de PrestaShop para obtener pedidos pendientes de envío"],
       []) :=
  C7_initial_fetch_failure envOk FetchOutcome.transportError (Or.inl rfl)

/-- C1 counterexample: in the claimed two-order scenario (one full success,
one failure at reference resolution because the delivery-address link is
missing) the final statistics are `processed=2, success=1, failure=1`, but
`errors` is empty — it does not contain an entry for the failed order,
because `process_single_order` records an error entry only in its exception
handler, not on its `return False` paths. -/
theorem C1_counterexample :
    (process_all_orders_async envOk (some [orderA, orderB]) stats0).1 =
      { orders_processed := 2, orders_success := 1, orders_failed := 1, errors := [] }
    ∧ (process_all_orders_async envOk (some [orderA, orderB]) stats0).1.errors.length ≠ 1 :=
  ⟨rfl, by decide⟩

/-- C1 (amended): per-order failures never abort the run, but only failures
raised as exceptions are recorded into the statistics' error list (with the
failed order's id); failures signalled by `return False` (missing links,
entity-fetch, template or mail-send failures) increment the failure counter
without appending an error entry.  In the two-order scenario the final
statistics are `processed=2, success=1, failure=1` with an empty error list,
and the summary notification is warning-styled. -/
theorem C1_amended :
    process_all_orders_async envOk (some [orderA, orderB]) stats0 =
      ({ orders_processed := 2, orders_success := 1, orders_failed := 1, errors := [] },
       [Notification.warning "Ejecución de envíos completada con errores" 2 1 1 []],
       [Event.fetchCustomerEv (Val.vStr "/customers/5"),
        Event.fetchAddressEv (Val.vStr "/addresses/7"),
        Event.genTemplateEv,
        Event.sendEmailEv (Val.vStr "ana@example.com") (Val.vStr "A100"),
        Event.updateStateEv (Val.vStr "1")])
    ∧ (∀ (env : Env) (order : Val) (b : Bool) (tr : List Event),
        psoBody env order = (Except.ok b, tr) →
        process_single_order env order = (Except.ok b, [], tr))
    ∧ (∀ (env : Env) (order oid : Val) (e : String) (tr : List Event),
        psoBody env order = (Except.error e, tr) →
        pyGet order "id" = Except.ok oid →
        process_single_order env order =
          (Except.ok false, [{ order_id := oid, error := e }], tr)) := by
  refine ⟨rfl, ?_, ?_⟩
  · intro env order b tr h
    simp [process_single_order, h]
  · intro env order oid e tr h h2
    simp [process_single_order, h, h2]

/-- C1 witness: an exception raised inside the order body (here: the
tracking access on a non-mapping `shipping_number`) is the one path that does
append an error entry, carrying `order.get("id")`. -/
theorem C1_witness :
    process_single_order envOk (Val.vDict [("shipping_number", Val.vStr "x")]) =
      (Except.ok false, [{ order_id := Val.vNone, error := "AttributeError" }], []) :=
  (C1_amended).2.2 envOk (Val.vDict [("shipping_number", Val.vStr "x")])
    Val.vNone "AttributeError" [] (by rfl) (by rfl)

/-- C2: a failing state transition never changes an order's outcome or the
run statistics.  The result and recorded errors of `process_single_order`,
and the statistics computed by the per-order loop, are identical for any two
state-update oracles; and an order whose processing returns success never
appends an error entry. -/
theorem C2_state_transition_nonfatal (env : Env) (f g : Val → Bool) (order : Val)
    (orders : List Val) (s0 : Stats) :
    (process_single_order { env with update_order_state := f } order).1 =
      (process_single_order { env with update_order_state := g } order).1
    ∧ (process_single_order { env with update_order_state := f } order).2.1 =
      (process_single_order { env with update_order_state := g } order).2.1
    ∧ (runLoop { env with update_order_state := f } orders s0).1 =
      (runLoop { env with update_order_state := g } orders s0).1
    ∧ ((process_single_order env order).1 = Except.ok true →
        (process_single_order env order).2.1 = ([] : List ErrEntry)) := by
  have hbody : ∀ (h₁ h₂ : Val → Bool),
      psoBody { env with update_order_state := h₁ } order =
      psoBody { env with update_order_state := h₂ } order := by
    intro h₁ h₂; rfl
  have hpso : ∀ (h₁ h₂ : Val → Bool),
      process_single_order { env with update_order_state := h₁ } order =
      process_single_order { env with update_order_state := h₂ } order := by
    intro h₁ h₂
    simp only [process_single_order, hbody h₁ h₂]
  refine ⟨by rw [hpso f g], by rw [hpso f g], ?_, ?_⟩
  · clear hbody hpso
    induction orders generalizing s0 with
    | nil => rfl
    | cons o rest ih =>
      have hb : psoBody { env with update_order_state := f } o =
          psoBody { env with update_order_state := g } o := rfl
      simp only [runLoop, process_single_order, hb]
      cases h : psoBody { env with update_order_state := g } o with
      | mk r tr =>
        cases r with
        | ok b => simp [ih]
        | error e =>
          cases h2 : pyGet o "id" <;> simp [ih]
  · intro h
    unfold process_single_order at h ⊢
    cases hb : psoBody env order with
    | mk r tr =>
      cases r with
      | ok b => simp [hb]
      | error e =>
        rw [hb] at h
        cases h2 : pyGet order "id" <;> simp_all

/-- C2 witness: the statement at a concrete environment and order; the email
of `orderA` is sent successfully under `envOk` and no error entry is added. -/
theorem C2_witness :
    (process_single_order envOk orderA).2.1 = ([] : List ErrEntry) :=
  (C2_state_transition_nonfatal envOk (fun _ => true) (fun _ => false) orderA [] stats0).2.2.2
    (by rfl)

/-- Evaluation of the order body on a well-formed order: the URL checks come
first, then the customer fetch, then (only if the customer fetch produced a
truthy value) the address fetch, template render, mail send and state update. -/
theorem psoBody_mkOrder (env : Env) (oid ref trk curl aurl : String) :
    psoBody env (mkOrder oid ref trk curl aurl) =
      (if (curl == "") || (aurl == "") then (Except.ok false, [])
       else
         let customer := env.fetch_customer_data (Val.vStr curl)
         if customer.falsy then
           (Except.ok false, [Event.fetchCustomerEv (Val.vStr curl)])
         else
           let address := env.fetch_address_data (Val.vStr aurl)
           if address.falsy then
             (Except.ok false,
              [Event.fetchCustomerEv (Val.vStr curl), Event.fetchAddressEv (Val.vStr aurl)])
           else
             let html := env.generate_email_template (mkOrder oid ref trk curl aurl) customer address
             if html.falsy then
               (Except.ok false,
                [Event.fetchCustomerEv (Val.vStr curl), Event.fetchAddressEv (Val.vStr aurl),
                 Event.genTemplateEv])
             else
               match pyIndex customer "email" with
               | Except.error e =>
                 (Except.error e,
                  [Event.fetchCustomerEv (Val.vStr curl), Event.fetchAddressEv (Val.vStr aurl),
                   Event.genTemplateEv])
               | Except.ok customer_email =>
                 if env.send_shipment_confirmation_email customer_email (Val.vStr ref) html then
                   (Except.ok true,
                    [Event.fetchCustomerEv (Val.vStr curl), Event.fetchAddressEv (Val.vStr aurl),
                     Event.genTemplateEv, Event.sendEmailEv customer_email (Val.vStr ref),
                     Event.updateStateEv (Val.vStr oid)])
                 else
                   (Except.ok false,
                    [Event.fetchCustomerEv (Val.vStr curl), Event.fetchAddressEv (Val.vStr aurl),
                     Event.genTemplateEv, Event.sendEmailEv customer_email (Val.vStr ref)])) :=
  rfl

/-- C5 counterexample: an order carrying both links whose customer fetch
fails.  The call trace contains only the customer fetch — the address fetch
was never attempted, so a failure of one fetch does prevent the other. -/
theorem C5_counterexample :
    (process_single_order envCustFail
        (mkOrder "10" "A100" "TRK123" "/customers/5" "/addresses/7")).2.2 =
      [Event.fetchCustomerEv (Val.vStr "/customers/5")]
    ∧ Event.fetchAddressEv (Val.vStr "/addresses/7") ∉
        [Event.fetchCustomerEv (Val.vStr "/customers/5")] :=
  ⟨rfl, by simp⟩

/-- C5 (amended): for an order with both links present, the two entity
fetches are sequential and short-circuiting: the customer is fetched first,
and when that fetch fails the order fails without the address fetch being
attempted; when the customer fetch succeeds the address fetch is attempted,
and the order is still unprocessable if the address fetch fails. -/
theorem C5_amended (env : Env) (oid ref trk curl aurl : String)
    (hc : curl ≠ "") (ha : aurl ≠ "") :
    (env.fetch_customer_data (Val.vStr curl) = Val.vNone →
      process_single_order env (mkOrder oid ref trk curl aurl) =
        (Except.ok false, [], [Event.fetchCustomerEv (Val.vStr curl)]))
    ∧ ((env.fetch_customer_data (Val.vStr curl)).falsy = false →
        Event.fetchAddressEv (Val.vStr aurl) ∈
          (process_single_order env (mkOrder oid ref trk curl aurl)).2.2
        ∧ ((env.fetch_address_data (Val.vStr aurl)).falsy = true →
            (process_single_order env (mkOrder oid ref trk curl aurl)).1 = Except.ok false)) := by
  have hcb : (curl == "") = false := beq_eq_false_iff_ne.mpr hc
  have hab : (aurl == "") = false := beq_eq_false_iff_ne.mpr ha
  constructor
  · intro hfail
    simp [process_single_order, psoBody_mkOrder, hcb, hab, hfail, Val.falsy]
  · intro htrue
    by_cases h1 : (env.fetch_address_data (Val.vStr aurl)).falsy
    · constructor
      · simp [process_single_order, psoBody_mkOrder, hcb, hab, htrue, h1]
      · intro _
        simp [process_single_order, psoBody_mkOrder, hcb, hab, htrue, h1]
    · refine ⟨?_, by intro h; simp_all⟩
      by_cases h2 : (env.generate_email_template (mkOrder oid ref trk curl aurl)
          (env.fetch_customer_data (Val.vStr curl))
          (env.fetch_address_data (Val.vStr aurl))).falsy
      · simp [process_single_order, psoBody_mkOrder, hcb, hab, htrue, h1, h2]
      · cases h3 : pyIndex (env.fetch_customer_data (Val.vStr curl)) "email" with
        | error e =>
          have hid : pyGet (mkOrder oid ref trk curl aurl) "id" = Except.ok (Val.vStr oid) := rfl
          simp [process_single_order, psoBody_mkOrder, hcb, hab, htrue, h1, h2, h3, hid]
        | ok customer_email =>
          by_cases h4 : env.send_shipment_confirmation_email customer_email (Val.vStr ref)
              (env.generate_email_template (mkOrder oid ref trk curl aurl)
                (env.fetch_customer_data (Val.vStr curl))
                (env.fetch_address_data (Val.vStr aurl)))
          · simp [process_single_order, psoBody_mkOrder, hcb, hab, htrue, h1, h2, h3, h4]
          · simp [process_single_order, psoBody_mkOrder, hcb, hab, htrue, h1, h2, h3, h4]

/-- C5 witness: the amended statement at a concrete environment and order. -/
theorem C5_witness :
    process_single_order envCustFail
        (mkOrder "10" "A100" "TRK123" "/customers/5" "/addresses/7") =
      (Except.ok false, [], [Event.fetchCustomerEv (Val.vStr "/customers/5")]) :=
  (C5_amended envCustFail "10" "A100" "TRK123" "/customers/5" "/addresses/7"
    (by decide) (by decide)).1 (by rfl)

theorem pyStrip_empty : pyStrip "" = "" := rfl

/-- Filter iteration on an order without a `shipping_number` key: a
normalized empty-tracking mapping is inserted and the order is rejected. -/
theorem filterStep_none (l : List (String × Val))
    (hsn : List.lookup "shipping_number" l = none) :
    filterStep (Val.vDict l) =
      Except.ok (Val.vDict (setKey l "shipping_number" (Val.vDict [("_", Val.vStr "")])), false) := by
  simp [filterStep, hsn, setKey, Val.isDict, pyStrip_empty]

/-- Filter iteration when `shipping_number` is None. -/
theorem filterStep_some_vNone (l : List (String × Val))
    (hsn : List.lookup "shipping_number" l = some Val.vNone) :
    filterStep (Val.vDict l) =
      Except.ok (Val.vDict (setKey l "shipping_number" (Val.vDict [("_", Val.vStr "")])), false) := by
  simp [filterStep, hsn, Val.isDict, Val.falsy, pyStrip_empty]

/-- Filter iteration when `shipping_number` is a bare string: it is wrapped
into a mapping in place and the keep decision is on its trimmed value. -/
theorem filterStep_some_vStr (l : List (String × Val)) (s : String)
    (hsn : List.lookup "shipping_number" l = some (Val.vStr s)) :
    filterStep (Val.vDict l) =
      Except.ok (Val.vDict (setKey l "shipping_number" (Val.vDict [("_", Val.vStr s)])),
        !(pyStrip s == "")) := by
  by_cases hs : s = ""
  · subst hs
    simp [filterStep, hsn, Val.isDict, Val.falsy, pyStrip_empty]
  · have hb : (s == "") = false := beq_eq_false_iff_ne.mpr hs
    simp [filterStep, hsn, Val.isDict, Val.falsy, hb, pyStr]

/-- Filter iteration when `shipping_number` is a list: coerced via `str()`. -/
theorem filterStep_some_vList (l : List (String × Val)) (xs : List Val)
    (hsn : List.lookup "shipping_number" l = some (Val.vList xs)) :
    filterStep (Val.vDict l) =
      Except.ok
        (Val.vDict (setKey l "shipping_number"
          (Val.vDict [("_",
            Val.vStr (if (Val.vList xs).falsy then "" else pyStr (Val.vList xs)))])),
         !(pyStrip (if (Val.vList xs).falsy then "" else pyStr (Val.vList xs)) == "")) := by
  by_cases hx : (Val.vList xs).falsy
  · simp [filterStep, hsn, Val.isDict, hx, pyStrip_empty]
  · simp [filterStep, hsn, Val.isDict, hx]

/-- Filter iteration when `shipping_number` is a mapping holding a string at
the text-content key: the order is untouched. -/
theorem filterStep_dict_str (l m : List (String × Val)) (s : String)
    (hsn : List.lookup "shipping_number" l = some (Val.vDict m))
    (hu : List.lookup "_" m = some (Val.vStr s)) :
    filterStep (Val.vDict l) = Except.ok (Val.vDict l, !(pyStrip s == "")) := by
  simp [filterStep, hsn, hu, Val.isDict]

/-- Filter iteration when `shipping_number` is a mapping without the
text-content key: an empty one is added in place and the order is rejected. -/
theorem filterStep_dict_nou (l m : List (String × Val))
    (hsn : List.lookup "shipping_number" l = some (Val.vDict m))
    (hu : List.lookup "_" m = none) :
    filterStep (Val.vDict l) =
      Except.ok (Val.vDict (setKey l "shipping_number" (Val.vDict (setKey m "_" (Val.vStr "")))),
        false) := by
  have hset : List.lookup "_" (setKey m "_" (Val.vStr "")) = some (Val.vStr "") :=
    lookup_setKey_self m "_" (Val.vStr "")
  simp [filterStep, hsn, hu, hset, Val.isDict, pyStrip_empty]

/-- Filter iteration when the stored text-content value is not a string:
`.strip()` raises. -/
theorem filterStep_dict_bad (l m : List (String × Val)) (u : Val)
    (hsn : List.lookup "shipping_number" l = some (Val.vDict m))
    (hu : List.lookup "_" m = some u) (hns : ∀ s, u ≠ Val.vStr s) :
    filterStep (Val.vDict l) = Except.error "AttributeError" := by
  cases u with
  | vStr s => exact absurd rfl (hns s)
  | vNone => simp [filterStep, hsn, hu, Val.isDict]
  | vDict m2 => simp [filterStep, hsn, hu, Val.isDict]
  | vList xs => simp [filterStep, hsn, hu, Val.isDict]

/-- C6 counterexample: an order without any `shipping_number` field is
rejected by the filter, yet its post-state differs from its input state — the
filter inserted a normalized `shipping_number` mapping in place. -/
theorem C6_counterexample :
    filterRun [Val.vDict [("id", Val.vStr "9")]] =
      Except.ok
        ([], [Val.vDict [("id", Val.vStr "9"), ("shipping_number", Val.vDict [("_", Val.vStr "")])]])
    ∧ Val.vDict [("id", Val.vStr "9"), ("shipping_number", Val.vDict [("_", Val.vStr "")])] ≠
        Val.vDict [("id", Val.vStr "9")] :=
  ⟨rfl, by simp⟩

/-- C6 (amended): the filter's only in-place effect on an order — rejected or
kept — is the normalization of its `shipping_number` field: every other field
is unchanged, and an order whose `shipping_number` is already a mapping
containing the text-content key is left bit-for-bit unchanged. -/
theorem C6_amended (order o2 : Val) (keep : Bool)
    (h : filterStep order = Except.ok (o2, keep)) :
    (∀ k, k ≠ "shipping_number" → pyLookup o2 k = pyLookup order k)
    ∧ (∀ m, pyLookup order "shipping_number" = some (Val.vDict m) →
        (List.lookup "_" m).isSome = true → o2 = order) := by
  cases order with
  | vNone => simp [filterStep] at h
  | vStr s => simp [filterStep] at h
  | vList xs => simp [filterStep] at h
  | vDict l =>
    cases hsn : List.lookup "shipping_number" l with
    | none =>
      rw [filterStep_none l hsn] at h
      simp only [Except.ok.injEq, Prod.mk.injEq] at h
      obtain ⟨ho2, -⟩ := h
      subst ho2
      refine ⟨fun k hk => ?_, fun m hm _ => ?_⟩
      · simp [pyLookup, lookup_setKey_ne l "shipping_number" k _ hk]
      · simp [pyLookup, hsn] at hm
    | some v =>
      cases v with
      | vNone =>
        rw [filterStep_some_vNone l hsn] at h
        simp only [Except.ok.injEq, Prod.mk.injEq] at h
        obtain ⟨ho2, -⟩ := h
        subst ho2
        refine ⟨fun k hk => ?_, fun m hm _ => ?_⟩
        · simp [pyLookup, lookup_setKey_ne l "shipping_number" k _ hk]
        · simp [pyLookup, hsn] at hm
      | vStr s =>
        rw [filterStep_some_vStr l s hsn] at h
        simp only [Except.ok.injEq, Prod.mk.injEq] at h
        obtain ⟨ho2, -⟩ := h
        subst ho2
        refine ⟨fun k hk => ?_, fun m hm _ => ?_⟩
        · simp [pyLookup, lookup_setKey_ne l "shipping_number" k _ hk]
        · simp [pyLookup, hsn] at hm
      | vList xs =>
        rw [filterStep_some_vList l xs hsn] at h
        simp only [Except.ok.injEq, Prod.mk.injEq] at h
        obtain ⟨ho2, -⟩ := h
        subst ho2
        refine ⟨fun k hk => ?_, fun m hm _ => ?_⟩
        · simp [pyLookup, lookup_setKey_ne l "shipping_number" k _ hk]
        · simp [pyLookup, hsn] at hm
      | vDict m =>
        cases hu : List.lookup "_" m with
        | none =>
          rw [filterStep_dict_nou l m hsn hu] at h
          simp only [Except.ok.injEq, Prod.mk.injEq] at h
          obtain ⟨ho2, -⟩ := h
          subst ho2
          refine ⟨fun k hk => ?_, fun m2 hm2 hsome => ?_⟩
          · simp [pyLookup, lookup_setKey_ne l "shipping_number" k _ hk]
          · simp only [pyLookup, hsn, Option.some.injEq, Val.vDict.injEq] at hm2
            rw [← hm2, hu] at hsome
            simp at hsome
        | some u =>
          cases u with
          | vStr s =>
            rw [filterStep_dict_str l m s hsn hu] at h
            simp only [Except.ok.injEq, Prod.mk.injEq] at h
            obtain ⟨ho2, -⟩ := h
            subst ho2
            exact ⟨fun k _ => rfl, fun m2 _ _ => rfl⟩
          | vNone =>
            rw [filterStep_dict_bad l m Val.vNone hsn hu (by intro s hs; cases hs)] at h
            cases h
          | vDict m2 =>
            rw [filterStep_dict_bad l m (Val.vDict m2) hsn hu (by intro s hs; cases hs)] at h
            cases h
          | vList xs =>
            rw [filterStep_dict_bad l m (Val.vList xs) hsn hu (by intro s hs; cases hs)] at h
            cases h

/-- C6 witness: the unmodified-fields part of the amended statement, at the
rejected order of the counterexample. -/
theorem C6_witness :
    pyLookup (Val.vDict [("id", Val.vStr "9"),
        ("shipping_number", Val.vDict [("_", Val.vStr "")])]) "id" =
      pyLookup (Val.vDict [("id", Val.vStr "9")]) "id" :=
  (C6_amended (Val.vDict [("id", Val.vStr "9")])
      (Val.vDict [("id", Val.vStr "9"), ("shipping_number", Val.vDict [("_", Val.vStr "")])])
      false (by rfl)).1 "id" (by decide)

/-- On a mapping order whose tracking field is in the scalar rule's domain,
one filter iteration computes exactly the in-place normalization and the
spec's keep predicate. -/
theorem filterStep_shaped (o : Val) (h1 : o.isDict = true)
    (h2 : scalarShaped (trackFieldOf o) = true) :
    filterStep o = Except.ok (normalizeOrder o, specKeepB o) := by
  cases o with
  | vNone => simp [Val.isDict] at h1
  | vStr s => simp [Val.isDict] at h1
  | vList xs => simp [Val.isDict] at h1
  | vDict l =>
    cases hsn : List.lookup "shipping_number" l with
    | none =>
      rw [filterStep_none l hsn]
      simp [normalizeOrder, specKeepB, trackFieldOf, normalize_scalar_field, hsn, setKey,
            pyStrip_empty]
    | some v =>
      cases v with
      | vNone =>
        rw [filterStep_some_vNone l hsn]
        simp [normalizeOrder, specKeepB, trackFieldOf, normalize_scalar_field, hsn, Val.falsy,
              pyStrip_empty]
      | vStr s =>
        rw [filterStep_some_vStr l s hsn]
        by_cases hs : s = ""
        · subst hs
          simp [normalizeOrder, specKeepB, trackFieldOf, normalize_scalar_field, hsn, Val.falsy,
                pyStrip_empty, pyStr]
        · have hb : (s == "") = false := beq_eq_false_iff_ne.mpr hs
          simp [normalizeOrder, specKeepB, trackFieldOf, normalize_scalar_field, hsn, Val.falsy,
                hb, pyStr]
      | vList xs => simp [scalarShaped, trackFieldOf, hsn] at h2
      | vDict m =>
        cases hu : List.lookup "_" m with
        | none =>
          rw [filterStep_dict_nou l m hsn hu]
          simp [normalizeOrder, specKeepB, trackFieldOf, normalize_scalar_field, hsn, hu,
                pyStrip_empty]
        | some u =>
          cases u with
          | vStr s =>
            rw [filterStep_dict_str l m s hsn hu]
            simp [normalizeOrder, specKeepB, trackFieldOf, normalize_scalar_field, hsn, hu]
          | vNone => simp [scalarShaped, trackFieldOf, hsn, hu] at h2
          | vDict m2 => simp [scalarShaped, trackFieldOf, hsn, hu] at h2
          | vList xs => simp [scalarShaped, trackFieldOf, hsn, hu] at h2

/-- The filter loop on scalar-rule-shaped orders: the kept orders are the
normalized versions of exactly the orders satisfying the spec predicate, in
input order, and every order's post-state is its normalization. -/
theorem filterRun_shaped (orders : List Val)
    (h : ∀ o ∈ orders, o.isDict = true ∧ scalarShaped (trackFieldOf o) = true) :
    filterRun orders =
      Except.ok ((orders.filter specKeepB).map normalizeOrder, orders.map normalizeOrder) := by
  induction orders with
  | nil => rfl
  | cons o rest ih =>
    have ho := h o (List.mem_cons_self o rest)
    have hstep := filterStep_shaped o ho.1 ho.2
    have hrest := ih (fun o2 ho2 => h o2 (List.mem_cons_of_mem o ho2))
    simp only [filterRun, hstep, hrest, List.filter_cons, List.map_cons]
    cases hk : specKeepB o <;> simp [hk]

/-- C4 counterexample: an order whose tracking field is a list.  The scalar
rule coerces it to the empty string, so the claim as stated excludes it; but
the code coerces it with `str()`, whose result has a non-empty trim, and
keeps the order. -/
theorem C4_counterexample :
    specKeepB (Val.vDict [("shipping_number", Val.vList [Val.vStr "a"])]) = false
    ∧ _filter_orders_with_tracking [Val.vDict [("shipping_number", Val.vList [Val.vStr "a"])]] =
        Except.ok [Val.vDict [("shipping_number", Val.vDict [("_", Val.vStr "[\x27a\x27]")])]]
    ∧ [Val.vDict [("shipping_number", Val.vDict [("_", Val.vStr "[\x27a\x27]")])]] ≠
        ([] : List Val) :=
  ⟨rfl, rfl, by simp⟩

/-- C4 (amended): on orders whose tracking field lies in the scalar rule's
domain (absent, bare string, or mapping whose text-content key — if present —
holds a string: the shapes for which the spec's coercion is defined),
`_filter_orders_with_tracking` keeps an order if and only if its tracking
field, coerced by the scalar rule and trimmed, is non-empty; the kept orders
appear in input order (stable filter), each in its normalized in-place form. -/
theorem C4_filter_characterization (orders : List Val)
    (h : ∀ o ∈ orders, o.isDict = true ∧ scalarShaped (trackFieldOf o) = true) :
    _filter_orders_with_tracking orders =
      Except.ok ((orders.filter specKeepB).map normalizeOrder) := by
  simp [_filter_orders_with_tracking, filterRun_shaped orders h]

/-- C4 witness: a tracked order, an untracked order and a whitespace-only
tracked order — only the first is kept. -/
theorem C4_witness :
    _filter_orders_with_tracking
        [orderA, Val.vDict [("id", Val.vStr "3")],
         Val.vDict [("id", Val.vStr "4"), ("shipping_number", Val.vDict [("_", Val.vStr "  ")])]] =
      Except.ok
        (([orderA, Val.vDict [("id", Val.vStr "3")],
           Val.vDict [("id", Val.vStr "4"),
             ("shipping_number", Val.vDict [("_", Val.vStr "  ")])]].filter specKeepB).map
          normalizeOrder) :=
  C4_filter_characterization _ (by decide)

/-- Any order kept by a filter iteration carries a `shipping_number` mapping
whose text-content key holds a string with non-empty trim. -/
theorem filterStep_kept (o1 o : Val) (h : filterStep o1 = Except.ok (o, true)) :
    ∃ m s, pyLookup o "shipping_number" = some (Val.vDict m)
      ∧ List.lookup "_" m = some (Val.vStr s)
      ∧ (pyStrip s == "") = false := by
  cases o1 with
  | vNone => simp [filterStep] at h
  | vStr t => simp [filterStep] at h
  | vList xs => simp [filterStep] at h
  | vDict l =>
    cases hsn : List.lookup "shipping_number" l with
    | none =>
      rw [filterStep_none l hsn] at h
      simp at h
    | some v =>
      cases v with
      | vNone =>
        rw [filterStep_some_vNone l hsn] at h
        simp at h
      | vStr s =>
        rw [filterStep_some_vStr l s hsn] at h
        simp only [Except.ok.injEq, Prod.mk.injEq] at h
        obtain ⟨ho, hkeep⟩ := h
        refine ⟨[("_", Val.vStr s)], s, ?_, by simp [List.lookup], by simpa using hkeep⟩
        rw [← ho]
        simp [pyLookup, lookup_setKey_self]
      | vList xs =>
        rw [filterStep_some_vList l xs hsn] at h
        simp only [Except.ok.injEq, Prod.mk.injEq] at h
        obtain ⟨ho, hkeep⟩ := h
        refine ⟨[("_", Val.vStr (if (Val.vList xs).falsy then "" else pyStr (Val.vList xs)))],
          (if (Val.vList xs).falsy then "" else pyStr (Val.vList xs)), ?_,
          by simp [List.lookup], by simpa using hkeep⟩
        rw [← ho]
        simp [pyLookup, lookup_setKey_self]
      | vDict m =>
        cases hu : List.lookup "_" m with
        | none =>
          rw [filterStep_dict_nou l m hsn hu] at h
          simp at h
        | some u =>
          cases u with
          | vStr s =>
            rw [filterStep_dict_str l m s hsn hu] at h
            simp only [Except.ok.injEq, Prod.mk.injEq] at h
            obtain ⟨ho, hkeep⟩ := h
            refine ⟨m, s, ?_, hu, by simpa using hkeep⟩
            rw [← ho]
            simp [pyLookup, hsn]
          | vNone =>
            rw [filterStep_dict_bad l m Val.vNone hsn hu (by intro s hs; cases hs)] at h
            cases h
          | vDict m2 =>
            rw [filterStep_dict_bad l m (Val.vDict m2) hsn hu (by intro s hs; cases hs)] at h
            cases h
          | vList xs =>
            rw [filterStep_dict_bad l m (Val.vList xs) hsn hu (by intro s hs; cases hs)] at h
            cases h

/-- Every order in the kept output of the filter loop is the kept result of
one of the input orders. -/
theorem filterRun_mem_kept (orders kept post : List Val)
    (h : filterRun orders = Except.ok (kept, post)) :
    ∀ o ∈ kept, ∃ o1, o1 ∈ orders ∧ filterStep o1 = Except.ok (o, true) := by
  induction orders generalizing kept post with
  | nil =>
    simp only [filterRun, Except.ok.injEq, Prod.mk.injEq] at h
    obtain ⟨h1, -⟩ := h
    subst h1
    intro o ho
    cases ho
  | cons o1 rest ih =>
    simp only [filterRun] at h
    cases hs : filterStep o1 with
    | error e => rw [hs] at h; cases h
    | ok pr =>
      obtain ⟨o2, keep⟩ := pr
      rw [hs] at h
      cases hr : filterRun rest with
      | error e => rw [hr] at h; cases h
      | ok pr2 =>
        obtain ⟨kept2, post2⟩ := pr2
        rw [hr] at h
        simp only [Except.ok.injEq, Prod.mk.injEq] at h
        obtain ⟨hkept, -⟩ := h
        intro o ho
        rw [← hkept] at ho
        cases keep with
        | true =>
          simp only [if_true, List.mem_cons] at ho
          rcases ho with rfl | ho2
          · exact ⟨o1, List.mem_cons_self o1 rest, hs⟩
          · obtain ⟨oa, hoa, hstep⟩ := ih kept2 post2 hr o ho2
            exact ⟨oa, List.mem_cons_of_mem o1 hoa, hstep⟩
        | false =>
          simp only [Bool.false_eq_true, if_false] at ho
          obtain ⟨oa, hoa, hstep⟩ := ih kept2 post2 hr o ho
          exact ⟨oa, List.mem_cons_of_mem o1 hoa, hstep⟩

/-- C10: every order in the filter's output carries a `shipping_number`
mapping containing the text-content key with a string value of non-empty
trim; consequently the orchestrator's access
`order.get("shipping_number", {}).get("_", "")` on a filtered order never
raises and never yields the empty string. -/
theorem C10_filtered_tracking (orders kept post : List Val)
    (h : filterRun orders = Except.ok (kept, post)) :
    ∀ o ∈ kept,
      pyLookup o "shipping_number" = some (Val.vDict (snFieldOf o))
      ∧ List.lookup "_" (snFieldOf o) = some (Val.vStr (trackStrOf o))
      ∧ pyStrip (trackStrOf o) ≠ ""
      ∧ trackStrOf o ≠ ""
      ∧ orchTracking o = Except.ok (Val.vStr (trackStrOf o)) := by
  intro o ho
  obtain ⟨o1, -, hstep⟩ := filterRun_mem_kept orders kept post h o ho
  obtain ⟨m, s, hm, hs, hk⟩ := filterStep_kept o1 o hstep
  have hsnf : snFieldOf o = m := by simp [snFieldOf, hm]
  have htrk : trackStrOf o = s := by simp [trackStrOf, hsnf, hs]
  have hkne : pyStrip s ≠ "" := by simpa [beq_eq_false_iff_ne] using hk
  have hdict : ∃ l2, o = Val.vDict l2 := by
    cases o with
    | vDict l2 => exact ⟨l2, rfl⟩
    | vNone => simp [pyLookup] at hm
    | vStr t => simp [pyLookup] at hm
    | vList xs => simp [pyLookup] at hm
  obtain ⟨l2, rfl⟩ := hdict
  have hm2 : List.lookup "shipping_number" l2 = some (Val.vDict m) := by
    simpa [pyLookup] using hm
  refine ⟨by rw [hsnf]; exact hm, by rw [hsnf, htrk]; exact hs, by rw [htrk]; exact hkne,
    ?_, ?_⟩
  · rw [htrk]
    intro hs0
    exact hkne (by rw [hs0]; exact pyStrip_empty)
  · simp [orchTracking, pyGetD, hm2, hs, htrk]

/-- C10 witness: a concrete filtered order. -/
theorem C10_witness :
    pyLookup (Val.vDict [("shipping_number", Val.vDict [("_", Val.vStr "TRK1")])])
        "shipping_number" =
      some (Val.vDict (snFieldOf (Val.vDict [("shipping_number", Val.vDict [("_", Val.vStr "TRK1")])])))
    ∧ List.lookup "_"
        (snFieldOf (Val.vDict [("shipping_number", Val.vDict [("_", Val.vStr "TRK1")])])) =
      some (Val.vStr (trackStrOf (Val.vDict [("shipping_number", Val.vDict [("_", Val.vStr "TRK1")])])))
    ∧ pyStrip (trackStrOf (Val.vDict [("shipping_number", Val.vDict [("_", Val.vStr "TRK1")])])) ≠ ""
    ∧ trackStrOf (Val.vDict [("shipping_number", Val.vDict [("_", Val.vStr "TRK1")])]) ≠ ""
    ∧ orchTracking (Val.vDict [("shipping_number", Val.vDict [("_", Val.vStr "TRK1")])]) =
      Except.ok (Val.vStr (trackStrOf (Val.vDict [("shipping_number", Val.vDict [("_", Val.vStr "TRK1")])]))) :=
  C10_filtered_tracking
    [Val.vDict [("shipping_number", Val.vDict [("_", Val.vStr "TRK1")])]]
    [Val.vDict [("shipping_number", Val.vDict [("_", Val.vStr "TRK1")])]]
    [Val.vDict [("shipping_number", Val.vDict [("_", Val.vStr "TRK1")])]]
    (by rfl)
    (Val.vDict [("shipping_number", Val.vDict [("_", Val.vStr "TRK1")])])
    (List.mem_singleton.mpr rfl)

/-- C9 counterexample: the filter keeps an order whose stored tracking value
is `" T "` — a value with surrounding whitespace.  The stored value is not
equal to its own trim, so the post-filter tracking value is not a trimmed
string (trimming happens only in the keep test, not in the stored record). -/
theorem C9_counterexample :
    _filter_orders_with_tracking
        [Val.vDict [("shipping_number", Val.vDict [("_", Val.vStr " T ")])]] =
      Except.ok [Val.vDict [("shipping_number", Val.vDict [("_", Val.vStr " T ")])]]
    ∧ orchTracking (Val.vDict [("shipping_number", Val.vDict [("_", Val.vStr " T ")])]) =
      Except.ok (Val.vStr " T ")
    ∧ pyStrip " T " ≠ " T " :=
  ⟨rfl, rfl, by decide⟩

/-- C9 (amended): every order in the sequence returned by the Order Filter
carries a tracking value that is a string whose trim is non-empty; the stored
value itself may retain surrounding whitespace. -/
theorem C9_amended (orders kept post : List Val)
    (h : filterRun orders = Except.ok (kept, post)) :
    ∀ o ∈ kept,
      orchTracking o = Except.ok (Val.vStr (trackStrOf o))
      ∧ pyStrip (trackStrOf o) ≠ "" := by
  intro o ho
  obtain ⟨o1, -, hstep⟩ := filterRun_mem_kept orders kept post h o ho
  obtain ⟨m, s, hm, hs, hk⟩ := filterStep_kept o1 o hstep
  have hsnf : snFieldOf o = m := by simp [snFieldOf, hm]
  have htrk : trackStrOf o = s := by simp [trackStrOf, hsnf, hs]
  have hkne : pyStrip s ≠ "" := by simpa [beq_eq_false_iff_ne] using hk
  have hdict : ∃ l2, o = Val.vDict l2 := by
    cases o with
    | vDict l2 => exact ⟨l2, rfl⟩
    | vNone => simp [pyLookup] at hm
    | vStr t => simp [pyLookup] at hm
    | vList xs => simp [pyLookup] at hm
  obtain ⟨l2, rfl⟩ := hdict
  have hm2 : List.lookup "shipping_number" l2 = some (Val.vDict m) := by
    simpa [pyLookup] using hm
  exact ⟨by simp [orchTracking, pyGetD, hm2, hs, htrk], by rw [htrk]; exact hkne⟩

/-- C9 witness: the amended invariant at a concrete filtered order. -/
theorem C9_witness :
    orchTracking (Val.vDict [("shipping_number", Val.vDict [("_", Val.vStr " T2 ")])]) =
      Except.ok (Val.vStr (trackStrOf (Val.vDict [("shipping_number", Val.vDict [("_", Val.vStr " T2 ")])])))
    ∧ pyStrip (trackStrOf (Val.vDict [("shipping_number", Val.vDict [("_", Val.vStr " T2 ")])])) ≠ "" :=
  C9_amended
    [Val.vDict [("shipping_number", Val.vDict [("_", Val.vStr " T2 ")])]]
    [Val.vDict [("shipping_number", Val.vDict [("_", Val.vStr " T2 ")])]]
    [Val.vDict [("shipping_number", Val.vDict [("_", Val.vStr " T2 ")])]]
    (by rfl)
    (Val.vDict [("shipping_number", Val.vDict [("_", Val.vStr " T2 ")])])
    (List.mem_singleton.mpr rfl)

/-- On a mapping order the per-order boundary always catches exceptions: the
outcome is a Boolean, never an escaped exception. -/
theorem pso_ok_of_isDict (env : Env) (o : Val) (h : o.isDict = true) :
    ∃ b errs tr, process_single_order env o = (Except.ok b, errs, tr) := by
  cases o with
  | vNone => simp [Val.isDict] at h
  | vStr s => simp [Val.isDict] at h
  | vList xs => simp [Val.isDict] at h
  | vDict l =>
    cases hb : psoBody env (Val.vDict l) with
    | mk r tr =>
      cases r with
      | ok b => exact ⟨b, [], tr, by simp [process_single_order, hb]⟩
      | error e =>
        refine ⟨false, [{ order_id := (List.lookup "id" l).getD Val.vNone, error := e }], tr, ?_⟩
        simp [process_single_order, hb, pyGet]

/-- On mapping orders the loop never aborts, and the processed counter grows
by exactly the number of orders. -/
theorem runLoop_total (env : Env) (orders : List Val)
    (h : ∀ o ∈ orders, o.isDict = true) :
    ∀ s0 : Stats, ∃ s tr, runLoop env orders s0 = (s, none, tr)
      ∧ s.orders_processed = s0.orders_processed + orders.length := by
  induction orders with
  | nil => exact fun s0 => ⟨s0, [], rfl, by simp⟩
  | cons o rest ih =>
    intro s0
    obtain ⟨b, errs, tr, hpso⟩ := pso_ok_of_isDict env o (h o (List.mem_cons_self o rest))
    obtain ⟨s3, tr2, hloop, hproc⟩ := ih (fun o2 ho2 => h o2 (List.mem_cons_of_mem o ho2)) _
    refine ⟨s3, tr ++ tr2, ?_, ?_⟩
    · simp only [runLoop, hpso]
      rw [hloop]
    · rw [hproc]
      simp
      omega

/-- C8: a run that processes at least one order issues exactly one summary
notification at the end — success-styled when no order failed, otherwise
warning-styled carrying the first 5 recorded errors in recorded order. -/
theorem C8_run_summary (env : Env) (orders : List Val) (h1 : orders ≠ [])
    (h2 : ∀ o ∈ orders, o.isDict = true) :
    process_all_orders_async env (some orders) stats0 =
      ((runLoop env orders stats0).1,
       (if (runLoop env orders stats0).1.orders_failed > 0
        then [Notification.warning "Ejecución de envíos completada con errores"
               (runLoop env orders stats0).1.orders_processed
               (runLoop env orders stats0).1.orders_success
               (runLoop env orders stats0).1.orders_failed
               ((runLoop env orders stats0).1.errors.take 5)]
        else [Notification.success "Ejecución de envíos completada exitosamente"]),
       (runLoop env orders stats0).2.2)
    ∧ 0 < (runLoop env orders stats0).1.orders_processed := by
  obtain ⟨s, tr, hloop, hproc⟩ := runLoop_total env orders h2 stats0
  have hlen : orders.length ≠ 0 := fun hl => h1 (List.length_eq_zero.mp hl)
  have hpos : 0 < s.orders_processed := by
    rw [hproc]
    simp [stats0]
    omega
  have hproc0 : s.orders_processed ≠ 0 := Nat.pos_iff_ne_zero.mp hpos
  rw [hloop]
  refine ⟨?_, hpos⟩
  simp only [process_all_orders_async, hloop, if_neg hlen]
  simp [send_execution_summary, hproc0]

/-- C8 witness: a one-order run under fully successful collaborators. -/
theorem C8_witness :
    process_all_orders_async envOk (some [orderA]) stats0 =
      ((runLoop envOk [orderA] stats0).1,
       (if (runLoop envOk [orderA] stats0).1.orders_failed > 0
        then [Notification.warning "Ejecución de envíos completada con errores"
               (runLoop envOk [orderA] stats0).1.orders_processed
               (runLoop envOk [orderA] stats0).1.orders_success
               (runLoop envOk [orderA] stats0).1.orders_failed
               ((runLoop envOk [orderA] stats0).1.errors.take 5)]
        else [Notification.success "Ejecución de envíos completada exitosamente"]),
       (runLoop envOk [orderA] stats0).2.2)
    ∧ 0 < (runLoop envOk [orderA] stats0).1.orders_processed :=
  C8_run_summary envOk [orderA] (List.cons_ne_nil _ _) (by decide)
